import Mathlib

/-!
Verification development for the homebridge-blueair-plugin state-management
core (src/src/accessory.ts, src/src/platform.ts, and the BlueAirDevice
variant in the repository).

The embedding models:
* JavaScript attribute maps (insertion-ordered string-keyed objects) as
  association lists with in-place update;
* `BlueAirDevice.calculateAqi` / `calculateAqiForSensor` with the AQI
  breakpoint tables;
* the pure decision core of `BlueAirDevice.setState`,
  `BlueAirDevice.updateState`, `BlueAirAccessory.setRotationSpeed`
  (debounce) and `BlueAirAccessory.maybeAutoAdjustFanSpeed`.
JavaScript numbers are modelled as rationals; `Math.round` as
`fun q => Int.floor (q + 1/2)` (round half toward positive infinity).
-/

namespace BlueAir

/-- Model of a JavaScript `number | boolean` attribute value. -/
inductive JSVal where
  | num (q : ℚ)
  | bool (b : Bool)
deriving DecidableEq, Repr

/-- JavaScript property read `m[k]` on an insertion-ordered object:
first binding for the key, `undefined` (none) when absent. -/
def getv {α : Type} : List (String × α) → String → Option α
  | [], _ => none
  | (k0, v0) :: rest, key => if key = k0 then some v0 else getv rest key

/-- JavaScript property write `m[k] = v`: replace the binding in place
when the key is present, append otherwise (insertion order preserved). -/
def setKey {α : Type} : List (String × α) → String → α → List (String × α)
  | [], k, v => [(k, v)]
  | (k0, v0) :: rest, k, v =>
    if k0 = k then (k, v) :: rest else (k0, v0) :: setKey rest k v

/-- Object spread `{...base, ...upd}`: key-wise overwrite of `base` by
the entries of `upd`, in order. -/
def objAssign {α : Type} (base upd : List (String × α)) : List (String × α) :=
  upd.foldl (fun acc p => setKey acc p.1 p.2) base

/-- Stored sensor snapshot of a device: string keys to possibly-undefined
numeric readings (`aqi` is stored as possibly-undefined, per
`BlueAirSensorDataWithAqi`). -/
def SensorMap : Type := List (String × Option ℚ)

/-- Property read on the sensor snapshot, collapsing an absent key and a
key stored as `undefined` to `none`, as JavaScript access does. -/
def getSensor (m : SensorMap) (k : String) : Option ℚ :=
  (getv m k).join

/-- `Math.round` on a non-NaN number: round half toward positive infinity. -/
def jsRound (q : ℚ) : ℤ := Int.floor (q + 1/2)

/-- `Math.round(q * 10) / 10`, the tenth-rounding applied to the PM2.5
reading in `calculateAqi`. -/
def jsRound10 (q : ℚ) : ℚ := (jsRound (q * 10) : ℚ) / 10

/-- Breakpoint table shape from `const AQI` in accessory.ts / constants.ts. -/
structure AQILevels where
  AQI_LO : List ℚ
  AQI_HI : List ℚ
  CONC_LO : List ℚ
  CONC_HI : List ℚ

/-- `AQI.PM2_5` breakpoint table. -/
def AQI_PM2_5 : AQILevels :=
  { AQI_LO := [0, 51, 101, 151, 201, 301]
    AQI_HI := [50, 100, 150, 200, 300, 500]
    CONC_LO := [0, 9.1, 35.5, 55.5, 125.5, 225.5]
    CONC_HI := [9, 35.4, 55.4, 125.4, 225.4, 325.4] }

/-- `AQI.PM10` breakpoint table. -/
def AQI_PM10 : AQILevels :=
  { AQI_LO := [0, 51, 101, 151, 201, 301]
    AQI_HI := [50, 100, 150, 200, 300, 500]
    CONC_LO := [0, 55, 155, 255, 355, 425]
    CONC_HI := [54, 154, 254, 354, 424, 604] }

/-- `AQI.VOC` breakpoint table. -/
def AQI_VOC : AQILevels :=
  { AQI_LO := [0, 51, 101, 151, 201, 301]
    AQI_HI := [50, 100, 150, 200, 300, 500]
    CONC_LO := [0, 221, 661, 1431, 2201, 3301]
    CONC_HI := [220, 660, 1430, 2200, 3300, 5500] }

/-- The indexed loop of `calculateAqiForSensor`, walking the four parallel
arrays row by row: the first row with `CONC_LO[i] ≤ v ≤ CONC_HI[i]` yields
the rounded linear interpolation; if no row matches, return 0. -/
def aqiLoop : List ℚ → List ℚ → List ℚ → List ℚ → ℚ → ℚ
  | alo :: alos, ahi :: ahis, clo :: clos, chi :: chis, v =>
    if clo ≤ v ∧ v ≤ chi then
      (jsRound ((ahi - alo) / (chi - clo) * (v - clo) + alo) : ℚ)
    else aqiLoop alos ahis clos chis v
  | _, _, _, _, _ => 0

/-- `BlueAirDevice.calculateAqiForSensor(value, sensor)`. -/
def calculateAqiForSensor (value : ℚ) (levels : AQILevels) : ℚ :=
  aqiLoop levels.AQI_LO levels.AQI_HI levels.CONC_LO levels.CONC_HI value

/-- `BlueAirDevice.calculateAqi()`: `undefined` when all of `pm2_5`,
`pm10`, `voc` are undefined; otherwise each missing reading defaults to 0
(`|| 0`), the PM2.5 reading is rounded to a tenth, and the result is
`Math.max` of the three per-pollutant indices. -/
def calculateAqi (s : SensorMap) : Option ℚ :=
  if getSensor s "pm2_5" = none ∧ getSensor s "pm10" = none ∧
      getSensor s "voc" = none then
    none
  else
    some (max (max
      (calculateAqiForSensor (jsRound10 ((getSensor s "pm2_5").getD 0)) AQI_PM2_5)
      (calculateAqiForSensor ((getSensor s "pm10").getD 0) AQI_PM10))
      (calculateAqiForSensor ((getSensor s "voc").getD 0) AQI_VOC))

/-- Device attribute snapshot `this.state`: string keys to
`number | boolean` values. -/
def StateMap : Type := List (String × JSVal)

/-- Observable outcome of one `BlueAirDevice.setState(attribute, value)`
call, given the sink's confirmation signal (`setStateDone` payload):
* `proposal`: the `setState` event emitted toward the platform/sink
  (`none` when the call returned early);
* `lockAcquired`: whether the per-device mutex was acquired;
* `mergedDelta`: the delta passed to `notifyStateUpdate` (empty if none);
* `finalState`: the device state snapshot after the call completes;
* `notified`: the `stateUpdated` payload, if one was emitted. -/
structure SetStateOutcome where
  proposal : Option (String × JSVal)
  lockAcquired : Bool
  mergedDelta : List (String × JSVal)
  finalState : List (String × JSVal)
  notified : Option (List (String × JSVal))
deriving DecidableEq, Repr

/-- `BlueAirDevice.setState`: skip (no event, no lock, no change) when the
attribute exists in the state with exactly the requested value; otherwise
emit the `setState` proposal, acquire the lock, and on a successful
`setStateDone` merge `{ [attribute]: value }` — plus `brightness = 0` when
the attribute is `nightmode` and the value is `true` — and emit one
`stateUpdated` notification with that delta (the pending buffer is assumed
empty, the quiescent single-caller cycle). -/
def setState (st : StateMap) (attr : String) (value : JSVal)
    (sinkSuccess : Bool) : SetStateOutcome :=
  if getv st attr = some value then
    ⟨none, false, [], st, none⟩
  else if sinkSuccess then
    let newState :=
      if attr = "nightmode" ∧ value = JSVal.bool true then
        [(attr, value), ("brightness", JSVal.num 0)]
      else [(attr, value)]
    ⟨some (attr, value), true, newState, objAssign st newState,
      some newState⟩
  else
    ⟨some (attr, value), true, [], st, none⟩

/-- One iteration of the sensor loop in `BlueAirDevice.updateState`: an
incoming entry `(k, v)` with `this.sensorData[k] !== v` is written into the
accumulated delta, and when `k` is one of the AQI trigger keys the delta's
`aqi` field is set to `this.calculateAqi()` — evaluated on `old`, the
snapshot as it is before the delta is applied. -/
def sensorEntryStep (old : SensorMap) (triggers : List String)
    (acc : SensorMap) (kv : String × ℚ) : SensorMap :=
  if getSensor old kv.1 = some kv.2 then acc
  else
    let acc2 := setKey acc kv.1 (some kv.2)
    if kv.1 ∈ triggers then setKey acc2 "aqi" (calculateAqi old) else acc2

/-- The sensor half of `BlueAirDevice.updateState`: fold the incoming
`Object.entries(newState.sensorData)` through `sensorEntryStep`. -/
def buildSensorDelta (old : SensorMap) (triggers : List String)
    (incoming : List (String × ℚ)) : SensorMap :=
  incoming.foldl (sensorEntryStep old triggers) []

/-- AQI trigger keys as written in src/src/accessory.ts `updateState`
(`"pm25"`, `"pm10"`, `"voc"`). -/
def aqiTriggerKeysAccessory : List String := ["pm25", "pm10", "voc"]

/-- AQI trigger keys as written in the BlueAirDevice variant (part_003)
`updateState` (`"pm2_5"`, `"pm10"`, `"voc"`), matching the sensor field
names used by `calculateAqi` and documented in the README. -/
def aqiTriggerKeysDevice : List String := ["pm2_5", "pm10", "voc"]

/-- One quiescent poll-driven update cycle on the sensor snapshot (the
BlueAirDevice variant): build the changed-sensor delta, apply it by spread,
and emit it as the notification payload. Returns
`(snapshot after the cycle, emitted delta)`. -/
def updateSensorCycle (old : SensorMap) (incoming : List (String × ℚ)) :
    SensorMap × SensorMap :=
  (objAssign old (buildSensorDelta old aqiTriggerKeysDevice incoming),
   buildSensorDelta old aqiTriggerKeysDevice incoming)

/-- Debounce semantics of `BlueAirAccessory.setRotationSpeed`: each call at
time `e.1` records value `e.2` as `pendingFanSpeed`, clears any pending
timer, and schedules the effect at `e.1 + W`. The scheduled timer of a call
survives exactly when the next call (if any) arrives no earlier than its
deadline; a surviving timer fires at the deadline with the value recorded
by its call. Input events are in strictly increasing time order. -/
def debounceEffects {α : Type} (W : ℤ) : List (ℤ × α) → List (ℤ × α)
  | [] => []
  | [e] => [(e.1 + W, e.2)]
  | e :: e2 :: rest =>
    if e.1 + W ≤ e2.1 then (e.1 + W, e.2) :: debounceEffects W (e2 :: rest)
    else debounceEffects W (e2 :: rest)

/-- JavaScript truthiness of a possibly-absent attribute value, as used by
`if (this.device.state.standby) return;`. -/
def truthy : Option JSVal → Bool
  | none => false
  | some (JSVal.num q) => q != 0
  | some (JSVal.bool b) => b

/-- Inputs read by one evaluation of
`BlueAirAccessory.maybeAutoAdjustFanSpeed`: the accessory flags, the
relevant device attributes, the clock and rate-limit timestamps (ms), the
measured humidity reading, the value returned by
`getTargetRelativeHumidity()`, and the current fan speed attribute. -/
structure AutoAdjustInput where
  deviceTypeIsHumidifier : Bool
  humidityAutoControlEnabled : Bool
  standby : Option JSVal
  nightmode : Option JSVal
  automode : Option JSVal
  now : ℤ
  lastAutoAdjust : ℤ
  lastManualOverride : ℤ
  humidity : Option ℚ
  target : ℚ
  fanspeed : Option ℚ
deriving DecidableEq, Repr

/-- The hysteresis decision at the end of `maybeAutoAdjustFanSpeed`:
compute `newSpeed` from `diff = target - current` and the current `speed`
(step 1 or 2 by tier, clamped to `[0, FAN_SPEED_MAX = 11]`), and issue a
`fanspeed` command exactly when `newSpeed !== speed`. -/
def autoSpeedDecision (diff speed : ℚ) : Option ℚ :=
  let newSpeed :=
    if 2 < diff then min 11 (speed + (if 5 < diff then 2 else 1))
    else if diff < -4 then max 0 (speed - (if diff < -8 then 2 else 1))
    else speed
  if newSpeed = speed then none else some newSpeed

/-- `BlueAirAccessory.maybeAutoAdjustFanSpeed`: the guard ladder (device
type, enable flag, standby, nightmode, `automode === false`, the two
60000 ms rate limits, and the missing/zero humidity check) followed by the
hysteresis decision. Returns the issued new fan speed, or `none` when no
command is issued. -/
def maybeAutoAdjustFanSpeed (i : AutoAdjustInput) : Option ℚ :=
  if ¬ i.deviceTypeIsHumidifier then none
  else if ¬ i.humidityAutoControlEnabled then none
  else if truthy i.standby then none
  else if truthy i.nightmode then none
  else if i.automode = some (JSVal.bool false) then none
  else if i.now - i.lastAutoAdjust < 60000 then none
  else if i.now - i.lastManualOverride < 60000 then none
  else if i.humidity.getD 0 = 0 then none
  else autoSpeedDecision (i.target - i.humidity.getD 0) (i.fanspeed.getD 0)

/-- All guards of `maybeAutoAdjustFanSpeed` ahead of the humidity-data
check permit action. -/
def guardsPass (i : AutoAdjustInput) : Prop :=
  i.deviceTypeIsHumidifier = true ∧
  i.humidityAutoControlEnabled = true ∧
  truthy i.standby = false ∧
  truthy i.nightmode = false ∧
  i.automode ≠ some (JSVal.bool false) ∧
  60000 ≤ i.now - i.lastAutoAdjust ∧
  60000 ≤ i.now - i.lastManualOverride

theorem getv_setKey_self {α : Type} (m : List (String × α)) (k : String)
    (v : α) : getv (setKey m k v) k = some v := by
  induction m with
  | nil => simp [setKey, getv]
  | cons p rest ih =>
    by_cases h : p.1 = k
    · simp [setKey, h, getv]
    · simp [setKey, h, getv, Ne.symm h, ih]

theorem getv_setKey_other {α : Type} (m : List (String × α)) (k k' : String)
    (v : α) (h : k' ≠ k) : getv (setKey m k v) k' = getv m k' := by
  induction m with
  | nil => simp [setKey, getv, h]
  | cons p rest ih =>
    by_cases h0 : p.1 = k
    · subst h0
      simp [setKey, getv, h, ih]
    · simp only [setKey, h0, if_false]
      by_cases h1 : k' = p.1
      · simp [getv, h1]
      · simp [getv, h1, ih]

end BlueAir

namespace BlueAir

/-- Claim C3, counterexample: the claim asserts that a PM2.5 reading of
exactly 125.4 maps to index 300, but the breakpoint row containing 125.4 is
(55.5, 125.4, 151, 200), so the code maps 125.4 to index 200, not 300. -/
theorem aqi_pm25_1254_cex :
    calculateAqiForSensor 125.4 AQI_PM2_5 = 200 ∧ (200 : ℚ) ≠ 300 := by
  constructor
  · norm_num [calculateAqiForSensor, AQI_PM2_5, aqiLoop, jsRound]
  · norm_num

/-- Claim C3 (amended): the per-pollutant AQI interpolation maps a PM2.5
reading of exactly 9.0 to index 50, exactly 35.4 to index 100, and exactly
125.4 to index 200 (the upper edge of the 151-200 row; 300 is instead the
image of 225.4). -/
theorem aqi_pm25_breakpoints :
    calculateAqiForSensor 9 AQI_PM2_5 = 50
  ∧ calculateAqiForSensor 35.4 AQI_PM2_5 = 100
  ∧ calculateAqiForSensor 125.4 AQI_PM2_5 = 200
  ∧ calculateAqiForSensor 225.4 AQI_PM2_5 = 300 := by
  refine ⟨?_, ?_, ?_, ?_⟩ <;>
    norm_num [calculateAqiForSensor, AQI_PM2_5, aqiLoop, jsRound]

/-- Claim C4, failing input: in src/src/accessory.ts `updateState` tests the
delta key against the literal `"pm25"`, but the PM2.5 sensor field — the one
`calculateAqi` reads and the README documents — is named `"pm2_5"`. So a
poll delta `{pm2_5: 50}` against a snapshot with `pm2_5 = 0` changes a
source pollutant reading, yet the built sensor delta carries no recomputed
`aqi`; the BlueAirDevice variant of the same loop (trigger key `"pm2_5"`)
does recompute it. -/
theorem updateState_pm25_key_mismatch :
    getSensor [("pm2_5", some (0 : ℚ))] "pm2_5" ≠ some 50
  ∧ buildSensorDelta [("pm2_5", some (0 : ℚ))] aqiTriggerKeysAccessory
      [("pm2_5", (50 : ℚ))] = [("pm2_5", some 50)]
  ∧ getv (buildSensorDelta [("pm2_5", some (0 : ℚ))] aqiTriggerKeysAccessory
      [("pm2_5", (50 : ℚ))]) "aqi" = none
  ∧ getv (buildSensorDelta [("pm2_5", some (0 : ℚ))] aqiTriggerKeysDevice
      [("pm2_5", (50 : ℚ))]) "aqi"
      = some (calculateAqi [("pm2_5", some (0 : ℚ))]) := by
  refine ⟨?_, ?_, ?_, ?_⟩ <;>
    simp +decide [buildSensorDelta, sensorEntryStep, getSensor, getv, setKey,
      aqiTriggerKeysAccessory, aqiTriggerKeysDevice]

end BlueAir

namespace BlueAir

/-- Claim C7: `calculateAqi` returns `undefined` exactly when all three of
`pm2_5`, `pm10`, `voc` are absent; otherwise it returns the maximum of the
three per-pollutant interpolated indices, each missing reading defaulting
to 0 (the PM2.5 reading additionally rounded to a tenth, as the code
does before interpolating). -/
theorem calculateAqi_correct (s : SensorMap) :
    (calculateAqi s = none ↔
      getSensor s "pm2_5" = none ∧ getSensor s "pm10" = none ∧
        getSensor s "voc" = none)
  ∧ (calculateAqi s = none ∨
      calculateAqi s = some (max (max
        (calculateAqiForSensor (jsRound10 ((getSensor s "pm2_5").getD 0))
          AQI_PM2_5)
        (calculateAqiForSensor ((getSensor s "pm10").getD 0) AQI_PM10))
        (calculateAqiForSensor ((getSensor s "voc").getD 0) AQI_VOC))) := by
  by_cases hc : getSensor s "pm2_5" = none ∧ getSensor s "pm10" = none ∧
      getSensor s "voc" = none
  · exact ⟨by simp [calculateAqi, hc], Or.inl (by simp [calculateAqi, hc])⟩
  · exact ⟨by simp [calculateAqi, hc], Or.inr (by simp [calculateAqi, hc])⟩

/-- Witness for C7 at a concrete snapshot holding only a PM10 reading. -/
theorem calculateAqi_correct_w :
    (calculateAqi [("pm10", some (100 : ℚ))] = none ↔
      getSensor [("pm10", some (100 : ℚ))] "pm2_5" = none ∧
        getSensor [("pm10", some (100 : ℚ))] "pm10" = none ∧
        getSensor [("pm10", some (100 : ℚ))] "voc" = none)
  ∧ (calculateAqi [("pm10", some (100 : ℚ))] = none ∨
      calculateAqi [("pm10", some (100 : ℚ))] = some (max (max
        (calculateAqiForSensor
          (jsRound10 ((getSensor [("pm10", some (100 : ℚ))] "pm2_5").getD 0))
          AQI_PM2_5)
        (calculateAqiForSensor
          ((getSensor [("pm10", some (100 : ℚ))] "pm10").getD 0) AQI_PM10))
        (calculateAqiForSensor
          ((getSensor [("pm10", some (100 : ℚ))] "voc").getD 0) AQI_VOC))) :=
  calculateAqi_correct [("pm10", some (100 : ℚ))]

theorem buildSensorDelta_aqi_aux (old : SensorMap) (triggers : List String)
    (incoming : List (String × ℚ)) (acc : SensorMap)
    (hk : ∀ e ∈ incoming, e.1 ≠ "aqi")
    (hacc : getv acc "aqi" = none ∨
      getv acc "aqi" = some (calculateAqi old)) :
    getv (incoming.foldl (sensorEntryStep old triggers) acc) "aqi" = none ∨
    getv (incoming.foldl (sensorEntryStep old triggers) acc) "aqi"
      = some (calculateAqi old) := by
  induction incoming generalizing acc with
  | nil => simpa using hacc
  | cons e rest ih =>
    simp only [List.foldl_cons]
    apply ih
    · intro e' he'
      exact hk e' (List.mem_cons_of_mem _ he')
    · simp only [sensorEntryStep]
      split
      · exact hacc
      · split
        · exact Or.inr (getv_setKey_self _ _ _)
        · rw [getv_setKey_other _ _ _ _
            (Ne.symm (hk e (List.mem_cons_self e rest)))]
          exact hacc

/-- Claim C9: in a poll-driven update cycle (BlueAirDevice variant), any
`aqi` value placed into the cycle's emitted sensor delta is the result of
`calculateAqi` evaluated on the sensor snapshot as it was before the
cycle's delta is applied; the incoming pollutant values are not used. -/
theorem updateState_aqi_uses_old_snapshot (old : SensorMap)
    (incoming : List (String × ℚ)) (hk : ∀ e ∈ incoming, e.1 ≠ "aqi") :
    getv (updateSensorCycle old incoming).2 "aqi" = none ∨
    getv (updateSensorCycle old incoming).2 "aqi"
      = some (calculateAqi old) := by
  have h := buildSensorDelta_aqi_aux old aqiTriggerKeysDevice incoming [] hk
    (Or.inl rfl)
  simpa [updateSensorCycle, buildSensorDelta] using h

/-- Witness for C9: a cycle that changes `pm2_5` from 10 to 50 emits an
`aqi` computed on the old snapshot. -/
theorem updateState_aqi_uses_old_snapshot_w :
    getv (updateSensorCycle [("pm2_5", some (10 : ℚ))]
      [("pm2_5", (50 : ℚ))]).2 "aqi" = none ∨
    getv (updateSensorCycle [("pm2_5", some (10 : ℚ))]
      [("pm2_5", (50 : ℚ))]).2 "aqi"
      = some (calculateAqi [("pm2_5", some (10 : ℚ))]) :=
  updateState_aqi_uses_old_snapshot [("pm2_5", some (10 : ℚ))]
    [("pm2_5", (50 : ℚ))] (by simp +decide)

end BlueAir

namespace BlueAir

/-- Claim C1, counterexample: `setState` on an attribute absent from the
device's known state set does NOT fail with a validation error before any
network action — it emits the `setState` proposal toward the command sink.
Concretely, on state `{fanspeed: 3}` the call
`setState("unknownAttr", false)` emits `{attribute: "unknownAttr",
value: false}`. -/
theorem setState_unknown_attr_emits_cex :
    getv [("fanspeed", JSVal.num 3)] "unknownAttr" = none
  ∧ (setState [("fanspeed", JSVal.num 3)] "unknownAttr" (JSVal.bool false)
      false).proposal = some ("unknownAttr", JSVal.bool false) := by
  constructor <;> simp +decide [setState, getv]

/-- Claim C1 (amended): for every attribute name absent from the device's
state and every value, `setState` performs no validation: it always emits
the `setState` proposal to the command sink; the snapshot changes only on
the sink's confirmation, so on a failed confirmation the snapshot is
unchanged and no notification is emitted. -/
theorem setState_unknown_attr_no_validation (st : StateMap) (attr : String)
    (v : JSVal) (success : Bool) (h : getv st attr = none) :
    (setState st attr v success).proposal = some (attr, v)
  ∧ (success = false → (setState st attr v success).finalState = st ∧
      (setState st attr v success).notified = none) := by
  have hne : ¬ getv st attr = some v := by simp [h]
  constructor
  · by_cases hs : success <;> simp [setState, hne, hs]
  · intro hs
    subst hs
    simp [setState, hne]

/-- Witness for C1 (amended) at state `{fanspeed: 3}` and attribute
`unknownAttr`. -/
theorem setState_unknown_attr_no_validation_w :
    getv [("fanspeed", JSVal.num 3)] "unknownAttr" = none
  ∧ ((setState [("fanspeed", JSVal.num 3)] "unknownAttr" (JSVal.bool false)
        false).proposal = some ("unknownAttr", JSVal.bool false)
    ∧ (false = false →
        (setState [("fanspeed", JSVal.num 3)] "unknownAttr"
          (JSVal.bool false) false).finalState = [("fanspeed", JSVal.num 3)]
      ∧ (setState [("fanspeed", JSVal.num 3)] "unknownAttr"
          (JSVal.bool false) false).notified = none)) :=
  ⟨by simp +decide [getv],
   setState_unknown_attr_no_validation [("fanspeed", JSVal.num 3)]
     "unknownAttr" (JSVal.bool false) false (by simp +decide [getv])⟩

/-- Claim C6: when the attribute is present in the state with exactly the
requested value, `setState` is a complete no-op: no proposal is emitted, no
lock is acquired, no delta is merged, the snapshot is unchanged, and no
notification is emitted — whatever the sink would have answered. -/
theorem setState_noop_unchanged (st : StateMap) (attr : String) (v : JSVal)
    (success : Bool) (h : getv st attr = some v) :
    setState st attr v success = ⟨none, false, [], st, none⟩ := by
  simp [setState, h]

/-- Witness for C6 at state `{fanspeed: 3}` with `setState("fanspeed", 3)`. -/
theorem setState_noop_unchanged_w :
    getv [("fanspeed", JSVal.num 3)] "fanspeed" = some (JSVal.num 3)
  ∧ setState [("fanspeed", JSVal.num 3)] "fanspeed" (JSVal.num 3) true
      = ⟨none, false, [], [("fanspeed", JSVal.num 3)], none⟩ :=
  ⟨by simp +decide [getv],
   setState_noop_unchanged [("fanspeed", JSVal.num 3)] "fanspeed"
     (JSVal.num 3) true (by simp +decide [getv])⟩

/-- Claim C5: whenever `setState("nightmode", true)` reaches the sink (the
current value is not already `true`) and the sink confirms success, the
merged delta and the emitted `stateUpdated` notification carry
`brightness = 0` alongside `nightmode = true`, and the resulting snapshot
holds both — although brightness was not part of the original proposal. -/
theorem setState_nightmode_brightness (st : StateMap)
    (h : getv st "nightmode" ≠ some (JSVal.bool true)) :
    (setState st "nightmode" (JSVal.bool true) true).mergedDelta
      = [("nightmode", JSVal.bool true), ("brightness", JSVal.num 0)]
  ∧ (setState st "nightmode" (JSVal.bool true) true).notified
      = some [("nightmode", JSVal.bool true), ("brightness", JSVal.num 0)]
  ∧ getv (setState st "nightmode" (JSVal.bool true) true).finalState
      "brightness" = some (JSVal.num 0)
  ∧ getv (setState st "nightmode" (JSVal.bool true) true).finalState
      "nightmode" = some (JSVal.bool true) := by
  have e : setState st "nightmode" (JSVal.bool true) true =
      ⟨some ("nightmode", JSVal.bool true), true,
       [("nightmode", JSVal.bool true), ("brightness", JSVal.num 0)],
       objAssign st
         [("nightmode", JSVal.bool true), ("brightness", JSVal.num 0)],
       some [("nightmode", JSVal.bool true), ("brightness", JSVal.num 0)]⟩ := by
    simp [setState, h]
  refine ⟨by rw [e], by rw [e], ?_, ?_⟩
  · rw [e]
    show getv (objAssign st _) "brightness" = _
    simp only [objAssign, List.foldl_cons, List.foldl_nil]
    exact getv_setKey_self _ _ _
  · rw [e]
    show getv (objAssign st _) "nightmode" = _
    simp only [objAssign, List.foldl_cons, List.foldl_nil]
    rw [getv_setKey_other _ _ _ _ (by decide)]
    exact getv_setKey_self _ _ _

/-- Witness for C5 on the empty snapshot. -/
theorem setState_nightmode_brightness_w :
    (setState [] "nightmode" (JSVal.bool true) true).mergedDelta
      = [("nightmode", JSVal.bool true), ("brightness", JSVal.num 0)]
  ∧ (setState [] "nightmode" (JSVal.bool true) true).notified
      = some [("nightmode", JSVal.bool true), ("brightness", JSVal.num 0)]
  ∧ getv (setState [] "nightmode" (JSVal.bool true) true).finalState
      "brightness" = some (JSVal.num 0)
  ∧ getv (setState [] "nightmode" (JSVal.bool true) true).finalState
      "nightmode" = some (JSVal.bool true) :=
  setState_nightmode_brightness [] (by simp [getv])

end BlueAir

namespace BlueAir

/-- Claim C8: for any nonempty call sequence in strictly increasing time
order whose consecutive inter-call gaps are all shorter than the window
`W`, the debouncer produces exactly one effect: it carries the last call's
value and fires exactly at (hence no earlier than) the last call's time
plus `W`; all intermediate values are discarded. -/
theorem debounce_coalesce {α : Type} (W : ℤ) :
    ∀ (l : List (ℤ × α)) (h : l ≠ []),
      List.Chain' (fun a b => b.1 < a.1 + W) l →
      debounceEffects W l = [((l.getLast h).1 + W, (l.getLast h).2)]
  | [], h, _ => absurd rfl h
  | [e], _, _ => by simp [debounceEffects]
  | e :: e2 :: rest, _, hch => by
    have h12 : e2.1 < e.1 + W := (List.chain'_cons.mp hch).1
    have ih := debounce_coalesce W (e2 :: rest) (by simp)
      (List.chain'_cons.mp hch).2
    rw [show debounceEffects W (e :: e2 :: rest)
        = debounceEffects W (e2 :: rest) by
      simp [debounceEffects, not_le.mpr h12]]
    rw [ih]
    simp [List.getLast_cons]

/-- Witness for C8: three calls (values 3, 5, 7) at times 0, 100, 250 with
window 300 coalesce into the single effect (550, 7). -/
theorem debounce_coalesce_w :
    debounceEffects 300 [((0 : ℤ), (3 : ℚ)), (100, 5), (250, 7)]
      = [(550, 7)] := by
  simpa using debounce_coalesce 300
    [((0 : ℤ), (3 : ℚ)), (100, 5), (250, 7)] (by simp)
    (by simp [List.chain'_cons])

theorem maybeAutoAdjust_guards_eq (i : AutoAdjustInput) (hg : guardsPass i) :
    maybeAutoAdjustFanSpeed i =
      if i.humidity.getD 0 = 0 then none
      else autoSpeedDecision (i.target - i.humidity.getD 0)
        (i.fanspeed.getD 0) := by
  obtain ⟨h1, h2, h3, h4, h5, h6, h7⟩ := hg
  unfold maybeAutoAdjustFanSpeed
  rw [if_neg (by simp [h1]), if_neg (by simp [h2]), if_neg (by simp [h3]),
    if_neg (by simp [h4]), if_neg h5, if_neg (not_lt.mpr h6),
    if_neg (not_lt.mpr h7)]

/-- Claim C10: the automatic humidity control loop issues no fan-speed
command when the measured humidity reading is absent or reads 0 — under any
combination of the other guards, rate limits, target and fan speed. -/
theorem autoAdjust_no_data_guard (i : AutoAdjustInput)
    (h : i.humidity = none ∨ i.humidity = some 0) :
    maybeAutoAdjustFanSpeed i = none := by
  have h0 : i.humidity.getD 0 = 0 := by rcases h with h | h <;> simp [h]
  simp only [maybeAutoAdjustFanSpeed, h0]
  simp

/-- Witness for C10: every guard permits action, yet the absent humidity
reading suppresses any adjustment. -/
theorem autoAdjust_no_data_guard_w :
    ((⟨true, true, some (JSVal.bool false), some (JSVal.bool false),
        some (JSVal.bool true), 120000, 0, 0, none, 60,
        some 5⟩ : AutoAdjustInput).humidity = none ∨
      (⟨true, true, some (JSVal.bool false), some (JSVal.bool false),
        some (JSVal.bool true), 120000, 0, 0, none, 60,
        some 5⟩ : AutoAdjustInput).humidity = some 0)
  ∧ maybeAutoAdjustFanSpeed
      ⟨true, true, some (JSVal.bool false), some (JSVal.bool false),
        some (JSVal.bool true), 120000, 0, 0, none, 60, some 5⟩ = none :=
  ⟨Or.inl rfl,
   autoAdjust_no_data_guard
     ⟨true, true, some (JSVal.bool false), some (JSVal.bool false),
       some (JSVal.bool true), 120000, 0, 0, none, 60, some 5⟩
     (Or.inl rfl)⟩

end BlueAir

namespace BlueAir

theorem autoSpeedDecision_deadzone (diff speed : ℚ) (hl : -4 ≤ diff)
    (hr : diff ≤ 2) : autoSpeedDecision diff speed = none := by
  simp [autoSpeedDecision, not_lt.mpr hr, not_lt.mpr hl]

theorem autoSpeedDecision_up_one (diff speed : ℚ) (hl : 2 < diff)
    (hr : diff ≤ 5) :
    autoSpeedDecision diff speed =
      (if min 11 (speed + 1) = speed then none
       else some (min 11 (speed + 1))) := by
  simp [autoSpeedDecision, hl, not_lt.mpr hr]

theorem autoSpeedDecision_up_two (diff speed : ℚ) (hl : 5 < diff) :
    autoSpeedDecision diff speed =
      (if min 11 (speed + 2) = speed then none
       else some (min 11 (speed + 2))) := by
  simp [autoSpeedDecision, show 2 < diff by linarith, hl]

theorem autoSpeedDecision_down_one (diff speed : ℚ) (hl : -8 ≤ diff)
    (hr : diff < -4) :
    autoSpeedDecision diff speed =
      (if max 0 (speed - 1) = speed then none
       else some (max 0 (speed - 1))) := by
  simp [autoSpeedDecision, not_lt.mpr (show diff ≤ 2 by linarith), hr,
    not_lt.mpr hl]

theorem autoSpeedDecision_down_two (diff speed : ℚ) (hl : diff < -8) :
    autoSpeedDecision diff speed =
      (if max 0 (speed - 2) = speed then none
       else some (max 0 (speed - 2))) := by
  simp [autoSpeedDecision, not_lt.mpr (show diff ≤ 2 by linarith),
    show diff < -4 by linarith, hl]

/-- Claim C2, counterexample: with every guard and rate limit permitting
action, humidity 60, target 66 (difference 6, above the increase
threshold) and fan speed 5, the loop issues speed 7 — a step of two
levels, not "exactly one". -/
theorem autoAdjust_two_step_cex :
    maybeAutoAdjustFanSpeed
      ⟨true, true, some (JSVal.bool false), some (JSVal.bool false),
        some (JSVal.bool true), 120000, 0, 0, some 60, 66, some 5⟩ = some 7
  ∧ ((7 : ℚ) ≠ 5 + 1) := by
  constructor
  · norm_num [maybeAutoAdjustFanSpeed, truthy, autoSpeedDecision]
  · norm_num

/-- Claim C2 (amended): in an evaluation of the humidity control loop in
which all guards and rate limits permit action and a nonzero humidity `c`
is measured, with `diff = target - c` and `speed` the current fan speed:
a `diff` in the dead zone `[-4, 2]` leaves the speed unchanged (no
command); `2 < diff ≤ 5` steps the speed up by one level and `5 < diff` by
two, clamped to at most 11; `-8 ≤ diff < -4` steps it down by one level and
`diff < -8` by two, clamped to at least 0; an up or down command is issued
only when the clamped new speed differs from the current one. -/
theorem autoAdjust_hysteresis (i : AutoAdjustInput) (hg : guardsPass i)
    (c : ℚ) (hc : i.humidity = some c) (hc0 : c ≠ 0) :
    ((-4 ≤ i.target - c ∧ i.target - c ≤ 2) →
        maybeAutoAdjustFanSpeed i = none)
  ∧ ((2 < i.target - c ∧ i.target - c ≤ 5) →
        maybeAutoAdjustFanSpeed i =
          (if min 11 (i.fanspeed.getD 0 + 1) = i.fanspeed.getD 0 then none
           else some (min 11 (i.fanspeed.getD 0 + 1))))
  ∧ (5 < i.target - c →
        maybeAutoAdjustFanSpeed i =
          (if min 11 (i.fanspeed.getD 0 + 2) = i.fanspeed.getD 0 then none
           else some (min 11 (i.fanspeed.getD 0 + 2))))
  ∧ ((-8 ≤ i.target - c ∧ i.target - c < -4) →
        maybeAutoAdjustFanSpeed i =
          (if max 0 (i.fanspeed.getD 0 - 1) = i.fanspeed.getD 0 then none
           else some (max 0 (i.fanspeed.getD 0 - 1))))
  ∧ (i.target - c < -8 →
        maybeAutoAdjustFanSpeed i =
          (if max 0 (i.fanspeed.getD 0 - 2) = i.fanspeed.getD 0 then none
           else some (max 0 (i.fanspeed.getD 0 - 2)))) := by
  have he := maybeAutoAdjust_guards_eq i hg
  rw [hc] at he
  simp only [Option.getD_some] at he
  rw [if_neg hc0] at he
  rw [he]
  refine ⟨?_, ?_, ?_, ?_, ?_⟩
  · rintro ⟨hl, hr⟩
    exact autoSpeedDecision_deadzone _ _ hl hr
  · rintro ⟨hl, hr⟩
    exact autoSpeedDecision_up_one _ _ hl hr
  · intro hl
    exact autoSpeedDecision_up_two _ _ hl
  · rintro ⟨hl, hr⟩
    exact autoSpeedDecision_down_one _ _ hl hr
  · intro hl
    exact autoSpeedDecision_down_two _ _ hl

/-- Witness for C2 (amended): guards pass, humidity 60, target 63
(difference 3, the one-step tier), fan speed 5. -/
theorem autoAdjust_hysteresis_w :
    guardsPass
      ⟨true, true, some (JSVal.bool false), some (JSVal.bool false),
        some (JSVal.bool true), 120000, 0, 0, some 60, 63, some 5⟩
  ∧ ((60 : ℚ) ≠ 0)
  ∧ (((2 : ℚ) < 63 - 60 ∧ (63 : ℚ) - 60 ≤ 5) →
      maybeAutoAdjustFanSpeed
        ⟨true, true, some (JSVal.bool false), some (JSVal.bool false),
          some (JSVal.bool true), 120000, 0, 0, some 60, 63, some 5⟩ =
        (if min 11 (((some (5 : ℚ)).getD 0) + 1) = (some (5 : ℚ)).getD 0
         then none
         else some (min 11 (((some (5 : ℚ)).getD 0) + 1)))) :=
  ⟨⟨rfl, rfl, rfl, rfl, by simp, by simp, by simp⟩, by simp,
   (autoAdjust_hysteresis
     ⟨true, true, some (JSVal.bool false), some (JSVal.bool false),
       some (JSVal.bool true), 120000, 0, 0, some 60, 63, some 5⟩
     ⟨rfl, rfl, rfl, rfl, by simp, by simp, by simp⟩
     60 rfl (by simp)).2.1⟩

end BlueAir
